import Mathlib

/-!
Verification of the MEXC volume-alert bot (src/MexcBot.py) against its
specification. The Python program is shallowly embedded: each relevant
source function becomes a Lean definition over explicit data, Python ints
become `Int`/`Nat`, fallible operations become `Option`, and external I/O
outcomes (HTTP responses, send results) become explicit parameters.
-/

namespace MexcBot

/-- One user-configured watch condition, mirroring the alert dicts created in
`any_message` and `button_handler`:
`{symbol, interval, threshold, last_notified, notifications_enabled}`. -/
structure Alert where
  symbol : String
  interval : String
  threshold : Int
  last_notified : Int
  notifications_enabled : Bool
deriving DecidableEq, Repr

/-- Embedding of the per-alert body of `monitor_volumes` (MexcBot.py lines
326-372).  `v` is the value returned by `fetch_volume`; `sendOk` is the
outcome of the `application.bot.send_message` call, whose failure is caught
by the inner `try/except` and only logged, so it cannot influence the stored
alert or the fired count.  The returned `Bool` records whether the firing
branch was taken (the `notifications_sent` increment). -/
def monitor_alert_step (a : Alert) (v : Int) (sendOk : Bool) : Alert × Bool :=
  -- if not alert.get("notifications_enabled", True): continue
  if a.notifications_enabled = false then (a, false)
  -- if vol == 0: continue
  else if v = 0 then (a, false)
  -- if vol >= threshold and vol != last_notified:
  else if a.threshold ≤ v ∧ v ≠ a.last_notified then
    ({ a with last_notified := v }, true)
  else (a, false)

/-- One alert observed over successive monitoring passes: the volume fetched
in each pass is given by the list `vs`; the result is the final alert state
and the per-pass firing flags.  Sends are taken as succeeding (`true`); by
construction of `monitor_alert_step` the flag is irrelevant to the state. -/
def runPassesAlert (a : Alert) (vs : List Int) : Alert × List Bool :=
  match vs with
  | [] => (a, [])
  | v :: rest =>
    let p := monitor_alert_step a v true
    let q := runPassesAlert p.1 rest
    (q.1, p.2 :: q.2)

/-- One full sweep of `monitor_volumes` over a list of (alert, fetched
volume, send outcome) triples: returns the updated alerts and the
`notifications_sent` counter. -/
def monitor_pass (xs : List (Alert × Int × Bool)) : List Alert × Nat :=
  match xs with
  | [] => ([], 0)
  | x :: rest =>
    let p := monitor_alert_step x.1 x.2.1 x.2.2
    let q := monitor_pass rest
    (p.1 :: q.1, (if p.2 then 1 else 0) + q.2)

/-- After the sweep, `monitor_volumes` calls `save_settings()` only when
`notifications_sent > 0` (lines 378-379): the persisted state, when a save
happens at all, is the updated alert list. -/
def pass_persists (xs : List (Alert × Int × Bool)) : Option (List Alert) :=
  if 0 < (monitor_pass xs).2 then some (monitor_pass xs).1 else none

/-- The concrete alert of the C2 scenario: BTCUSDT, 1h, threshold 5000,
fresh (`last_notified = 0`), notifications enabled. -/
def btc_alert : Alert :=
  { symbol := "BTCUSDT", interval := "1h", threshold := 5000,
    last_notified := 0, notifications_enabled := true }

/-- Claim C1: for an enabled alert with non-zero fetched volume `v`, the
notification fires and `last_notified` is set to exactly `v` if and only if
`v ≥ threshold` and `v ≠ last_notified`; in every other case the alert is
unchanged and no notification is enqueued. -/
theorem monitor_fire_iff (a : Alert) (v : Int)
    (hen : a.notifications_enabled = true) (hv : v ≠ 0) :
    (a.threshold ≤ v ∧ v ≠ a.last_notified →
      monitor_alert_step a v true = ({ a with last_notified := v }, true)) ∧
    (¬(a.threshold ≤ v ∧ v ≠ a.last_notified) →
      monitor_alert_step a v true = (a, false)) := by
  unfold monitor_alert_step
  rw [hen]
  constructor
  · intro hc
    simp [hv, hc]
  · intro hc
    simp [hv, hc]

/-- Witness for C1 at concrete inputs: a fresh enabled alert with threshold
5000 and fetched volume 6000 fires and stores 6000; with fetched volume 3000
it is left unchanged. -/
theorem monitor_fire_iff_witness :
    monitor_alert_step btc_alert 6000 true
      = ({ btc_alert with last_notified := 6000 }, true) ∧
    monitor_alert_step btc_alert 3000 true = (btc_alert, false) := by
  constructor
  · exact (monitor_fire_iff btc_alert 6000 rfl (by decide)).1 (by decide)
  · exact (monitor_fire_iff btc_alert 3000 rfl (by decide)).2 (by decide)

/-- Claim C2: for the BTCUSDT/1h/5000 alert over fetched volumes
[0, 3000, 6000, 6000, 7000], the firing pattern is
[no, no, yes, no, yes] — two notifications in total. -/
theorem btc_scenario :
    (runPassesAlert btc_alert [0, 3000, 6000, 6000, 7000]).2
        = [false, false, true, false, true] ∧
    (runPassesAlert btc_alert [0, 3000, 6000, 6000, 7000]).2.count true = 2 := by
  decide

/-- Claim C4: an alert with `notifications_enabled = false` never fires: a
single step leaves it unchanged with no notification whatever the volume and
send outcome, and over any sequence of passes no notification is ever
produced. -/
theorem disabled_never_fires (a : Alert) (v : Int) (s : Bool) (vs : List Int)
    (hdis : a.notifications_enabled = false) :
    monitor_alert_step a v s = (a, false) ∧
    runPassesAlert a vs = (a, List.replicate vs.length false) := by
  have hstep : ∀ (w : Int) (t : Bool), monitor_alert_step a w t = (a, false) := by
    intro w t
    unfold monitor_alert_step
    rw [hdis]
    simp
  refine ⟨hstep v s, ?_⟩
  induction vs with
  | nil => rfl
  | cons w rest ih =>
    simp only [runPassesAlert, hstep w true, ih, List.length_cons,
      List.replicate_succ]

/-- Witness for C4: a disabled copy of the BTCUSDT alert stays silent over
the whole C2 volume sequence. -/
theorem disabled_never_fires_witness :
    runPassesAlert { btc_alert with notifications_enabled := false }
        [0, 3000, 6000, 6000, 7000]
      = ({ btc_alert with notifications_enabled := false },
          List.replicate 5 false) :=
  (disabled_never_fires { btc_alert with notifications_enabled := false }
    0 true [0, 3000, 6000, 6000, 7000] rfl).2

/-- Claim C5: a fetched volume of 0 makes the pass skip the alert: no
notification and every field (in particular `last_notified`) unchanged. -/
theorem zero_volume_skips (a : Alert) (s : Bool) :
    monitor_alert_step a 0 s = (a, false) := by
  unfold monitor_alert_step
  by_cases h : a.notifications_enabled = false <;> simp [h]

/-- Claim C10: `last_notified` is assigned before the send is attempted and
the send failure is caught per-alert, so (i) the stored state and the fired
flag do not depend on the send outcome, (ii) after a failed delivery the
alert still holds the new `last_notified = v`, (iii) the subsequent
persistence (triggered because `notifications_sent > 0`) records the updated
alert, and (iv) the same qualifying reading `v` does not fire again on a
later pass. -/
theorem send_failure_keeps_state (a : Alert) (v : Int) (s1 s2 : Bool)
    (rest : List (Alert × Int × Bool))
    (hen : a.notifications_enabled = true) (hv : v ≠ 0)
    (hth : a.threshold ≤ v) (hne : v ≠ a.last_notified) :
    monitor_alert_step a v false = monitor_alert_step a v s1 ∧
    (monitor_alert_step a v false).1.last_notified = v ∧
    pass_persists ((a, v, false) :: rest)
      = some (({ a with last_notified := v }) :: (monitor_pass rest).1) ∧
    (monitor_alert_step (monitor_alert_step a v false).1 v s2).2 = false := by
  have hfire : monitor_alert_step a v false
      = ({ a with last_notified := v }, true) := by
    unfold monitor_alert_step
    rw [hen]
    simp [hv, hth, hne]
  refine ⟨?_, ?_, ?_, ?_⟩
  · rw [hfire]
    unfold monitor_alert_step
    rw [hen]
    simp [hv, hth, hne]
  · rw [hfire]
  · have hm : monitor_pass ((a, v, false) :: rest)
        = (({ a with last_notified := v }) :: (monitor_pass rest).1,
            1 + (monitor_pass rest).2) := by
      simp only [monitor_pass, hfire]
      simp
    unfold pass_persists
    rw [hm]
    simp
  · rw [hfire]
    unfold monitor_alert_step
    simp [hen, hv]

/-- Witness for C10: the BTCUSDT alert firing at 6000 with a failed send
keeps `last_notified = 6000`, is persisted, and does not re-fire at 6000. -/
theorem send_failure_keeps_state_witness :
    (monitor_alert_step btc_alert 6000 false).1.last_notified = 6000 ∧
    pass_persists [(btc_alert, 6000, false)]
      = some [{ btc_alert with last_notified := 6000 }] ∧
    (monitor_alert_step (monitor_alert_step btc_alert 6000 false).1
        6000 true).2 = false := by
  have h := send_failure_keeps_state btc_alert 6000 true true []
    rfl (by decide) (by decide) (by decide)
  exact ⟨h.2.1, h.2.2.1, h.2.2.2⟩

/-- A freshly created alert, as built on both add paths
(`any_message` lines 710-716/736-742 and `button_handler` lines 967-973/
1005-1011): `last_notified = 0`, notifications enabled. -/
def mkAlert (sym interval : String) (thr : Int) : Alert :=
  { symbol := sym, interval := interval, threshold := thr,
    last_notified := 0, notifications_enabled := true }

/-- The single-add path (`any_message` else-branch lines 735-744 and
`button_handler` volbtn else-branch lines 1004-1012): the new alert is
appended unconditionally, with no duplicate check. -/
def add_single (alerts : List Alert) (sym interval : String) (thr : Int) :
    List Alert :=
  alerts ++ [mkAlert sym interval thr]

/-- The duplicate check of the bulk-add path: `existing` is set when some
stored alert has the same symbol and interval (lines 702-707 / 959-964). -/
def alert_pair_exists (alerts : List Alert) (sym interval : String) : Bool :=
  alerts.any (fun a => a.symbol == sym && a.interval == interval)

/-- The bulk-add path (lines 695-718 / 952-975): each requested symbol is
appended only when no alert with the same (symbol, interval) is already in
the list, which grows as symbols are processed. -/
def add_multiple (alerts : List Alert) (syms : List String) (interval : String)
    (thr : Int) : List Alert :=
  syms.foldl
    (fun acc sym =>
      if alert_pair_exists acc sym interval then acc
      else acc ++ [mkAlert sym interval thr])
    alerts

/-- Number of stored alerts for a given (symbol, interval) pair. -/
def count_pair (alerts : List Alert) (sym interval : String) : Nat :=
  (alerts.filter (fun a => a.symbol == sym && a.interval == interval)).length

theorem alert_pair_exists_iff (alerts : List Alert) (sym interval : String) :
    alert_pair_exists alerts sym interval = true ↔
      0 < count_pair alerts sym interval := by
  unfold alert_pair_exists count_pair
  simp [List.any_eq_true, List.length_pos_iff_exists_mem, List.mem_filter]

theorem count_pair_append_mk (alerts : List Alert)
    (sym2 interval2 sym interval : String) (thr : Int) :
    count_pair (alerts ++ [mkAlert sym2 interval2 thr]) sym interval
      = count_pair alerts sym interval
        + (if (sym2 == sym && interval2 == interval) = true then 1 else 0) := by
  cases h : (sym2 == sym && interval2 == interval) <;>
    simp [count_pair, List.filter_append, List.filter_cons, mkAlert, h]

theorem add_multiple_count_le (alerts : List Alert) (syms : List String)
    (interval sym : String) (thr : Int) :
    count_pair (add_multiple alerts syms interval thr) sym interval
      ≤ max 1 (count_pair alerts sym interval) := by
  unfold add_multiple
  induction syms generalizing alerts with
  | nil => exact le_max_right 1 _
  | cons s rest ih =>
    rw [List.foldl_cons]
    by_cases hex : alert_pair_exists alerts s interval = true
    · rw [if_pos hex]
      exact ih alerts
    · rw [if_neg hex]
      refine le_trans (ih _) ?_
      rw [count_pair_append_mk]
      by_cases hs : (s == sym && interval == interval) = true
      · have h2 := (Bool.and_eq_true _ _).mp hs
        have hs' : s = sym := by simpa using h2.1
        -- the pair was absent, so after the append it occurs exactly once
        subst hs'
        have hz : count_pair alerts s interval = 0 := by
          by_contra hnz
          exact hex ((alert_pair_exists_iff alerts s interval).mpr
            (Nat.pos_of_ne_zero hnz))
        rw [hz, if_pos hs]
        simp
      · rw [if_neg hs]
        simp

/-- Counterexample to claim C3 as stated: adding the same
(BTCUSDT, 1h) alert twice through the single-add path stores it twice, not
once — the duplicate rejection is not applied on that path. -/
theorem duplicate_single_add_cex :
    ¬ count_pair
        (add_single (add_single [] "BTCUSDT" "1h" 5000) "BTCUSDT" "1h" 5000)
        "BTCUSDT" "1h" = 1 := by
  decide

/-- Claim C3 (amended): the bulk-add path rejects duplicates — a symbol
whose (symbol, interval) pair already exists is skipped, and bulk-add never
leaves more than one alert for a pair that was not already duplicated — but
the single-add path appends unconditionally with no duplicate check, so the
rejection policy is not applied consistently across the two paths. -/
theorem duplicate_policy (alerts : List Alert) (syms : List String)
    (sym interval : String) (thr : Int) :
    (alert_pair_exists alerts sym interval = true →
      add_multiple alerts [sym] interval thr = alerts) ∧
    count_pair (add_multiple alerts syms interval thr) sym interval
      ≤ max 1 (count_pair alerts sym interval) ∧
    add_single alerts sym interval thr = alerts ++ [mkAlert sym interval thr] := by
  refine ⟨?_, add_multiple_count_le alerts syms interval sym thr, rfl⟩
  intro hex
  unfold add_multiple
  rw [List.foldl_cons, if_pos hex, List.foldl_nil]

/-- Witness for the amended C3: with a BTCUSDT/1h alert already stored, a
bulk add of BTCUSDT for 1h changes nothing. -/
theorem duplicate_policy_witness :
    add_multiple [mkAlert "BTCUSDT" "1h" 5000] ["BTCUSDT"] "1h" 7000
      = [mkAlert "BTCUSDT" "1h" 5000] :=
  (duplicate_policy [mkAlert "BTCUSDT" "1h" 5000] ["BTCUSDT"] "BTCUSDT" "1h"
    7000).1 (by decide)

/-- Truncation toward zero, the behaviour of Python `int(float(amount))`
applied to the parsed numeric value of the amount string (here represented
exactly as a rational). -/
def pyTrunc (q : ℚ) : Int :=
  if 0 ≤ q then ⌊q⌋ else ⌈q⌉

/-- One network attempt of `fetch_volume` (lines 264-293), as seen by the
code after JSON parsing: an HTTP response carrying the status, the success
flag and the `data.amount` series (entries are `none` when the element is
JSON null or empty — the `if amount:` check; numeric strings are represented
by their exact rational value), a timeout, or any other exception (including
a malformed body that fails to parse). -/
inductive Attempt where
  | http (status : Nat) (success : Bool) (amount : List (Option ℚ))
  | timeout
  | exn
deriving DecidableEq

/-- What a single loop iteration of `fetch_volume` does with one attempt:
produce a value and return, fall through to the next attempt (status 429
after a sleep, any other non-200 status, a 200 whose payload is not a
success or has no usable amount, a timeout after a sleep), or abort the loop
(`break` on a generic exception). -/
inductive AttemptOut where
  | value (z : Int)
  | noData
  | abort
deriving DecidableEq

def attemptOut (a : Attempt) : AttemptOut :=
  match a with
  | Attempt.http status success amount =>
    if status = 200 then
      -- if j.get("success") and j.get("data", {}).get("amount"):
      if success = true ∧ amount ≠ [] then
        match amount.head? with
        | some (some q) => AttemptOut.value (pyTrunc q)
        | _ => AttemptOut.noData
      else AttemptOut.noData
    else AttemptOut.noData
  | Attempt.timeout => AttemptOut.noData
  | Attempt.exn => AttemptOut.abort

/-- Embedding of `fetch_volume` (lines 253-295): two attempts; the first
usable amount is returned truncated to an integer; a generic exception stops
retrying; in every remaining case the function falls off the loop and
returns the 0 sentinel.  Totality (it never raises to the caller) holds by
construction: this is a total function. -/
def fetch_volume (a0 a1 : Attempt) : Int :=
  match attemptOut a0 with
  | AttemptOut.value z => z
  | AttemptOut.abort => 0
  | AttemptOut.noData =>
    match attemptOut a1 with
    | AttemptOut.value z => z
    | _ => 0

/-- Claim C6: `fetch_volume` is total (a Lean function, so it cannot raise);
on an HTTP 200 whose payload signals success and carries a non-empty amount
series it returns the first amount truncated to an integer — which equals
the floor for the non-negative readings the exchange produces — and whenever
no attempt yields a usable reading (non-200 status, rate-limit 429,
malformed or unsuccessful body, timeout, exception) it returns 0. -/
theorem fetch_volume_spec (a0 a1 : Attempt) :
    (∀ (q : ℚ) (rest : List (Option ℚ)),
      a0 = Attempt.http 200 true (some q :: rest) →
        fetch_volume a0 a1 = pyTrunc q ∧ (0 ≤ q → pyTrunc q = ⌊q⌋)) ∧
    ((∀ z, attemptOut a0 ≠ AttemptOut.value z) →
     (∀ z, attemptOut a1 ≠ AttemptOut.value z) →
      fetch_volume a0 a1 = 0) := by
  constructor
  · rintro q rest rfl
    refine ⟨?_, fun hq => if_pos hq⟩
    unfold fetch_volume attemptOut
    simp
  · intro h0 h1
    unfold fetch_volume
    cases hv0 : attemptOut a0 with
    | value z => exact absurd hv0 (h0 z)
    | abort => rfl
    | noData =>
      cases hv1 : attemptOut a1 with
      | value z => exact absurd hv1 (h1 z)
      | abort => rfl
      | noData => rfl

/-- Witness for C6: a successful first attempt with amount 7/2 returns 3
(truncation), and a timeout followed by an exception returns the 0
sentinel. -/
theorem fetch_volume_spec_witness :
    fetch_volume (Attempt.http 200 true [some (7/2)]) Attempt.timeout = 3 ∧
    fetch_volume Attempt.timeout Attempt.exn = 0 := by
  constructor
  · have h := ((fetch_volume_spec (Attempt.http 200 true [some (7/2)])
      Attempt.timeout).1 (7/2) [] rfl).1
    rw [h]
    norm_num [pyTrunc]
  · refine (fetch_volume_spec Attempt.timeout Attempt.exn).2 ?_ ?_
    · intro z h
      exact AttemptOut.noConfusion h
    · intro z h
      exact AttemptOut.noConfusion h

/-- Outcome of the single HTTP GET in `load_symbols` (lines 221-251), after
JSON parsing: a response with status, success flag and the list of contract
symbol fields, or any raised exception (transport error, malformed body). -/
inductive LoadResp where
  | http (status : Nat) (success : Bool) (data : List String)
  | exn
deriving DecidableEq

/-- True when the string contains the `_USDT` separator, the model of
Python `"_USDT" in x["symbol"]`. -/
def hasUSDTsep (s : String) : Bool :=
  1 < (s.splitOn "_USDT").length

/-- Quote-pair normalization: strip the internal separator,
`x["symbol"].replace("_USDT", "USDT")`. -/
def normalizeSym (s : String) : String :=
  s.replace "_USDT" "USDT"

/-- The hardcoded fallback universe of `load_symbols` (lines 243-248). -/
def FALLBACK_SYMBOLS : List String :=
  ["BTCUSDT", "ETHUSDT", "SOLUSDT", "BNBUSDT", "ADAUSDT",
   "XRPUSDT", "DOGEUSDT", "DOTUSDT", "AVAXUSDT", "LINKUSDT",
   "MATICUSDT", "SHIBUSDT", "TRXUSDT", "UNIUSDT", "ATOMUSDT",
   "LTCUSDT", "XLMUSDT", "ALGOUSDT", "VETUSDT", "FILUSDT"]

/-- The fall-through tail of `load_symbols` (lines 242-251): when no fresh
list was installed, keep the current universe if it already has at least 50
entries, otherwise substitute the hardcoded fallback; return False. -/
def fallbackStep (prev : List String) : List String × Bool :=
  (if prev.length < 50 then FALLBACK_SYMBOLS else prev, false)

/-- Embedding of `load_symbols`: `prev` is the current `ALL_SYMBOLS`
universe (the Python set is modelled as its list of elements; `dedup`
mirrors set construction).  On a 200 response whose body is a success with
non-empty data, the universe is replaced by the filtered, normalized symbol
set and True is returned; every other outcome falls through to
`fallbackStep`.  The `except` around the request absorbs every exception, so
the function never raises. -/
def load_symbols (prev : List String) (r : LoadResp) : List String × Bool :=
  match r with
  | LoadResp.http status success data =>
    if status = 200 ∧ success = true ∧ data ≠ [] then
      (((data.filter hasUSDTsep).map normalizeSym).dedup, true)
    else fallbackStep prev
  | LoadResp.exn => fallbackStep prev

/-- A failed load: any exception, any non-200 status, or a 200 whose body
is not a success or has empty data. -/
def isLoadFailure (r : LoadResp) : Bool :=
  match r with
  | LoadResp.http status success data =>
    decide (¬(status = 200 ∧ success = true ∧ data ≠ []))
  | LoadResp.exn => true

/-- Claim C7: when `load_symbols` fails it never raises (totality by
construction); it leaves the existing universe untouched when that universe
already has a reasonable size (at least 50 entries), and otherwise installs
the small hardcoded fallback set. -/
theorem load_symbols_failure (prev : List String) (r : LoadResp)
    (hfail : isLoadFailure r = true) :
    (50 ≤ prev.length → load_symbols prev r = (prev, false)) ∧
    (prev.length < 50 → load_symbols prev r = (FALLBACK_SYMBOLS, false)) := by
  have hfb : load_symbols prev r = fallbackStep prev := by
    cases r with
    | http status success data =>
      simp only [isLoadFailure] at hfail
      simp only [load_symbols]
      rw [if_neg (of_decide_eq_true hfail)]
    | exn => rfl
  rw [hfb]
  unfold fallbackStep
  constructor
  · intro h
    rw [if_neg (by omega)]
  · intro h
    rw [if_pos h]

/-- Witness for C7: an exception with an empty universe installs the
fallback set; a 500 status with a 50-entry universe leaves it untouched. -/
theorem load_symbols_failure_witness :
    load_symbols [] LoadResp.exn = (FALLBACK_SYMBOLS, false) ∧
    load_symbols (List.replicate 50 "BTCUSDT") (LoadResp.http 500 true [])
      = (List.replicate 50 "BTCUSDT", false) := by
  constructor
  · exact (load_symbols_failure [] LoadResp.exn (by decide)).2 (by decide)
  · exact (load_symbols_failure (List.replicate 50 "BTCUSDT")
      (LoadResp.http 500 true []) (by decide)).1 (by simp)

/-- The decimal digit character for `d`, as produced by Python `str`. -/
def digitChar (d : Nat) : Char := Char.ofNat (48 + d)

/-- The numeric value of a decimal digit character, as consumed by Python
`int`. -/
def charDigit (c : Char) : Nat := c.toNat - 48

/-- Whether a character is an ASCII decimal digit (the `\d` class of
`re.findall`, and the characters accepted by `int`). -/
def isDigitChar (c : Char) : Bool := decide (48 ≤ c.toNat ∧ c.toNat ≤ 57)

/-- The value of a string of decimal digit characters, most significant
first: the model of Python `int` applied to a digit string.
(`Nat.ofDigits` is little-endian, hence the reverse.) -/
def digitsToNat (run : List Char) : Nat :=
  Nat.ofDigits 10 ((run.map charDigit).reverse)

/-- `text.replace(",", "").replace(" ", "")` (line 682): composing the two
replacements with empty replacement strings removes every comma and space. -/
def stripSeps (l : List Char) : List Char :=
  l.filter (fun c => decide (c ≠ ',' ∧ c ≠ ' '))

/-- The first match of `re.findall(r"\d+", ...)` (line 682): the first
maximal run of consecutive digit characters, if any. -/
def firstDigitRun (l : List Char) : Option (List Char) :=
  match l with
  | [] => none
  | c :: rest =>
    if isDigitChar c then some (c :: rest.takeWhile isDigitChar)
    else firstDigitRun rest

/-- Threshold parsing in the `wait_threshold*` states of `any_message`
(lines 679-691): strip separators, take the first digit run, convert with
`int`, and reject values below 1000.  `none` covers both error replies
("enter a number" when no digits are found, "minimum threshold 1000" when
the value is too small); in both cases the handler returns before touching
any alert. -/
def parse_threshold (text : String) : Option Nat :=
  match firstDigitRun (stripSeps text.toList) with
  | none => none
  | some run =>
    if digitsToNat run < 1000 then none else some (digitsToNat run)

/-- The pending dialogue draft that determines which branch of the
threshold handler runs: bulk add (`"symbols" in user_temp`), edit
(`edit_threshold*` states), or single add. -/
inductive PendingDraft where
  | single (symbol interval : String)
  | multiple (symbols : List String) (interval : String)
  | editIdx (idx : Nat)
deriving DecidableEq

/-- `user_settings[chat_id][idx]["threshold"] = v`.  (An out-of-range index
raises IndexError in Python; none of the claims exercises that case, and it
is modelled as a no-op here.) -/
def set_threshold_at (alerts : List Alert) (idx : Nat) (thr : Int) :
    List Alert :=
  match alerts, idx with
  | [], _ => []
  | a :: rest, 0 => { a with threshold := thr } :: rest
  | a :: rest, n + 1 => a :: set_threshold_at rest n thr

/-- The threshold-entry step of `any_message` (lines 679-753): parse the
text; on rejection reply with an error and leave the alerts untouched
(`false`); on success dispatch to the bulk-add, edit, or single-add branch
(`true`). -/
def threshold_step (alerts : List Alert) (p : PendingDraft) (text : String) :
    List Alert × Bool :=
  match parse_threshold text with
  | none => (alerts, false)
  | some v =>
    match p with
    | PendingDraft.multiple syms interval =>
        (add_multiple alerts syms interval (v : Int), true)
    | PendingDraft.editIdx idx => (set_threshold_at alerts idx (v : Int), true)
    | PendingDraft.single sym interval =>
        (add_single alerts sym interval (v : Int), true)

/-- Claim C9: threshold parsing accepts values with thousands separators —
"10,000" parses to 10000 — and rejects every input whose extracted value is
below 1000 (including inputs with no number at all): on rejection the
handler replies with an error and neither creates nor modifies any alert,
whatever dialogue branch was pending. -/
theorem threshold_parse_spec :
    parse_threshold "10,000" = some 10000 ∧
    ∀ (text : String) (alerts : List Alert) (p : PendingDraft),
      (∀ run, firstDigitRun (stripSeps text.toList) = some run →
        digitsToNat run < 1000) →
      threshold_step alerts p text = (alerts, false) := by
  constructor
  · decide
  · intro text alerts p h
    have hp : parse_threshold text = none := by
      unfold parse_threshold
      cases hrun : firstDigitRun (stripSeps text.toList) with
      | none => rfl
      | some run =>
        show (if digitsToNat run < 1000 then none
          else some (digitsToNat run)) = none
        rw [if_pos (h run hrun)]
    unfold threshold_step
    rw [hp]

/-- Witness for C9: the input "500" extracts 500 < 1000 and is rejected
without touching the stored alerts. -/
theorem threshold_parse_spec_witness :
    threshold_step [mkAlert "BTCUSDT" "1h" 5000]
        (PendingDraft.single "ETHUSDT" "1h") "500"
      = ([mkAlert "BTCUSDT" "1h" 5000], false) := by
  apply threshold_parse_spec.2
  intro run hr
  have h5 : firstDigitRun (stripSeps ("500".toList)) = some ['5', '0', '0'] := by
    decide
  rw [h5] at hr
  rw [← Option.some.inj hr]
  decide

/-- The decimal digit string of a natural number, most significant digit
first: the model of Python `str` on a non-negative int. -/
def natDecimalList (n : Nat) : List Char :=
  if n = 0 then ['0'] else ((Nat.digits 10 n).reverse).map digitChar

/-- Python `int` on a candidate digit string: accepts a non-empty all-digit
string and returns its value, raises (`none`) otherwise.  (The real `int`
also tolerates surrounding whitespace and a leading plus sign; this stricter
model agrees with it on every string `str` produces.) -/
def parseNat? (l : List Char) : Option Nat :=
  if l ≠ [] ∧ l.all isDigitChar = true then some (digitsToNat l) else none

/-- Python `str(k)` for an int key, as a character list: an optional minus
sign followed by the decimal digits of the magnitude. -/
def intChars_of_int (k : Int) : List Char :=
  if k < 0 then '-' :: natDecimalList k.natAbs else natDecimalList k.toNat

/-- `str(k)`: the serialized form of a chat id (save_settings line 82). -/
def str_of_int (k : Int) : String := String.mk (intChars_of_int k)

/-- Python `int(s)` on a character list: an optional leading minus sign, then
a digit string. -/
def intFromChars? (l : List Char) : Option Int :=
  match l with
  | [] => none
  | c :: rest =>
    if c = '-' then (parseNat? rest).map (fun n : Nat => -(Int.ofNat n))
    else (parseNat? (c :: rest)).map (fun n : Nat => Int.ofNat n)

/-- `int(k)` on a serialized key (load_settings line 95). -/
def int_of_str? (s : String) : Option Int := intFromChars? s.toList

/-- `save_settings` (lines 78-85): serialize the chat→alerts mapping with
chat ids coerced to strings, `{str(k): v ...}`.  The JSON encoding of the
alert objects themselves (strings, arbitrary-precision ints, booleans) is
faithful, so the alert lists are carried through unchanged; the mapping is
modelled as an association list, which also fixes the iteration order. -/
def save_settings (m : List (Int × List Alert)) : List (String × List Alert) :=
  m.map (fun p => (str_of_int p.1, p.2))

/-- `load_settings` (lines 87-102): rebuild the mapping with
`{int(k): v ...}`; a key that fails to parse raises, which the surrounding
`except` turns into an empty mapping — modelled as `none`. -/
def load_settings :
    List (String × List Alert) → Option (List (Int × List Alert))
  | [] => some []
  | p :: rest =>
    match int_of_str? p.1, load_settings rest with
    | some k, some m => some ((k, p.2) :: m)
    | _, _ => none

theorem charDigit_digitChar : ∀ d, d < 10 → charDigit (digitChar d) = d := by
  decide

theorem isDigitChar_digitChar : ∀ d, d < 10 → isDigitChar (digitChar d) = true := by
  decide

theorem natDecimalList_all_digit (n : Nat) :
    (natDecimalList n).all isDigitChar = true := by
  unfold natDecimalList
  by_cases h : n = 0
  · rw [if_pos h]
    decide
  · rw [if_neg h, List.all_eq_true]
    intro c hc
    rcases List.mem_map.mp hc with ⟨d, hd, rfl⟩
    exact isDigitChar_digitChar d
      (Nat.digits_lt_base (by norm_num) (List.mem_reverse.mp hd))

theorem natDecimalList_ne_nil (n : Nat) : natDecimalList n ≠ [] := by
  unfold natDecimalList
  by_cases h : n = 0
  · rw [if_pos h]
    simp
  · rw [if_neg h]
    simp [Nat.digits_ne_nil_iff_ne_zero, h]

theorem parseNat_natDecimalList (n : Nat) :
    parseNat? (natDecimalList n) = some n := by
  unfold parseNat?
  rw [if_pos ⟨natDecimalList_ne_nil n, natDecimalList_all_digit n⟩]
  refine congrArg some ?_
  by_cases h : n = 0
  · subst h
    decide
  · have hform : natDecimalList n = ((Nat.digits 10 n).reverse).map digitChar :=
      if_neg h
    rw [hform]
    unfold digitsToNat
    rw [List.map_map]
    have hmap : List.map (charDigit ∘ digitChar) (Nat.digits 10 n).reverse
        = (Nat.digits 10 n).reverse := by
      conv_rhs => rw [← List.map_id ((Nat.digits 10 n).reverse)]
      apply List.map_congr_left
      intro d hd
      exact charDigit_digitChar d
        (Nat.digits_lt_base (by norm_num) (List.mem_reverse.mp hd))
    rw [hmap, List.reverse_reverse, Nat.ofDigits_digits]

theorem intFromChars_of_int (k : Int) :
    intFromChars? (intChars_of_int k) = some k := by
  by_cases hk : k < 0
  · have h1 : intChars_of_int k = '-' :: natDecimalList k.natAbs := if_pos hk
    rw [h1]
    have h2 : intFromChars? ('-' :: natDecimalList k.natAbs)
        = (parseNat? (natDecimalList k.natAbs)).map
            (fun n : Nat => -(Int.ofNat n)) := by
      simp [intFromChars?]
    rw [h2, parseNat_natDecimalList]
    show some (-(Int.ofNat k.natAbs)) = some k
    refine congrArg some ?_
    rw [Int.ofNat_eq_natCast]
    omega
  · have h1 : intChars_of_int k = natDecimalList k.toNat := if_neg hk
    rw [h1]
    cases hL : natDecimalList k.toNat with
    | nil => exact absurd hL (natDecimalList_ne_nil _)
    | cons c rest =>
      have hcd : isDigitChar c = true := by
        have hall := natDecimalList_all_digit k.toNat
        rw [hL] at hall
        simp only [List.all_cons, Bool.and_eq_true] at hall
        exact hall.1
      have hcne : ¬ c = '-' := by
        intro hc
        rw [hc] at hcd
        exact absurd hcd (by decide)
      have h2 : intFromChars? (c :: rest)
          = (parseNat? (c :: rest)).map (fun n : Nat => Int.ofNat n) := by
        simp only [intFromChars?]
        rw [if_neg hcne]
      rw [h2, ← hL, parseNat_natDecimalList]
      show some (Int.ofNat k.toNat) = some k
      refine congrArg some ?_
      rw [Int.ofNat_eq_natCast]
      omega

theorem int_of_str_of_int (k : Int) : int_of_str? (str_of_int k) = some k :=
  intFromChars_of_int k

/-- Claim C8: saving a chat→alerts mapping with integer chat keys to the
persisted format (chat ids coerced to strings) and loading it back yields an
equivalent mapping — the same chats with the same alert field values, order
preserved (the loaded association list is equal to the original). -/
theorem save_load_roundtrip (m : List (Int × List Alert)) :
    load_settings (save_settings m) = some m := by
  induction m with
  | nil => rfl
  | cons p rest ih =>
    have hs : save_settings (p :: rest)
        = (str_of_int p.1, p.2) :: save_settings rest := rfl
    rw [hs]
    simp only [load_settings]
    rw [int_of_str_of_int, ih]

end MexcBot
